import Mathlib

/-!
Shallow embedding of the FinSmart personal-finance dashboard
(Expense_tracker.py, budget_manager.py, Investment_Calculator.py,
data_visualization.py, app.py).  Python float arithmetic is modelled as
exact rational arithmetic (real arithmetic where the source takes a
twelfth root); pandas DataFrames become Lean lists of rows; Python dicts
become insertion-ordered association lists.
-/

/-- An expense record as built in Expense_tracker.py lines 36-41: date,
amount, category, description.  Dates are modelled as integer day numbers. -/
structure Expense where
  date : Int
  amount : ℚ
  category : String
  description : String
deriving DecidableEq

/-- Monthly rate of calculate_sip_returns (Investment_Calculator.py line 20):
monthly_rate = (1 + annual_return_rate/100) ** (1/12) - 1. -/
noncomputable def monthly_rate (annual_return_rate : ℝ) : ℝ :=
  (1 + annual_return_rate / 100) ^ ((1 : ℝ) / 12) - 1

/-- Column total_investment of calculate_sip_returns (Investment_Calculator.py
lines 30-36), indexed by the 0-based loop variable month: month 0 holds one
contribution, each later month adds one contribution. -/
noncomputable def total_investment (monthly_investment : ℝ) : ℕ → ℝ
  | 0 => monthly_investment
  | n + 1 => total_investment monthly_investment n + monthly_investment

/-- Column investment_value of calculate_sip_returns (Investment_Calculator.py
lines 30-39): month 0 equals the contribution; month n+1 is the previous value
times (1 + monthly_rate) plus the contribution. -/
noncomputable def investment_value (annual_return_rate monthly_investment : ℝ) :
    ℕ → ℝ
  | 0 => monthly_investment
  | n + 1 =>
      investment_value annual_return_rate monthly_investment n *
        (1 + monthly_rate annual_return_rate) + monthly_investment

/-- calculate_sip_returns (Investment_Calculator.py lines 7-48): the result
DataFrame as its list of rows (Month, Total_Investment, Investment_Value),
with the Month column running 1 .. time_years*12. -/
noncomputable def calculate_sip_returns (monthly_investment annual_return_rate : ℝ)
    (time_years : ℕ) : List (ℕ × ℝ × ℝ) :=
  (List.range (time_years * 12)).map fun month =>
    (month + 1, total_investment monthly_investment month,
      investment_value annual_return_rate monthly_investment month)

/-- calculate_lumpsum_returns (Investment_Calculator.py lines 50-76): the rows
(Year, Investment_Value) for year = 0 .. time_years inclusive, with value
investment_amount * (1 + annual_return_rate/100) ^ year. -/
def calculate_lumpsum_returns (investment_amount annual_return_rate : ℚ)
    (time_years : ℕ) : List (ℕ × ℚ) :=
  (List.range (time_years + 1)).map fun year =>
    (year, investment_amount * (1 + annual_return_rate / 100) ^ year)

/-- real_return_rate of the SIP summary (Investment_Calculator.py line 142):
(1 + annual_return_rate/100) / (1 + inflation_rate/100) - 1. -/
def real_return_rate (annual_return_rate inflation_rate : ℚ) : ℚ :=
  (1 + annual_return_rate / 100) / (1 + inflation_rate / 100) - 1

/-- inflation_adj_final of the SIP summary (Investment_Calculator.py line 143).
The source divides by real_return_rate with no guard; when that rate is 0
Python raises ZeroDivisionError, modelled here as none. -/
def sip_inflation_adj_final
    (monthly_investment annual_return_rate inflation_rate : ℚ)
    (time_years : ℕ) : Option ℚ :=
  let r := real_return_rate annual_return_rate inflation_rate
  if r = 0 then none
  else some (monthly_investment * (((1 + r) ^ (time_years * 12) - 1) / r) * (1 + r))

/-- Severity of a budget progress line, i.e. the color chosen in
budget_manager.py lines 148-153: ok is green, warning is orange, critical is
red. -/
inductive Severity
  | ok
  | warning
  | critical
deriving DecidableEq

/-- One line of the budget-vs-actual report of budget_manager.py lines 143-166. -/
structure BudgetLine where
  category : String
  budget : ℚ
  spent : ℚ
  percentUsed : ℚ
  severity : Severity
  overBudgetBy : Option ℚ
deriving DecidableEq

/-- The report line built for one category in budget_manager.py lines 144-164:
percentage = min(100, spent/budget*100) (the else-0 ternary branch of line 146
is unreachable, the enclosing branch has budget > 0); the color is red when
percentage >= 80, orange when percentage >= 60, green otherwise (lines 149-153);
remaining = budget - spent < 0 is reported as over budget by abs(remaining)
(lines 160-162). -/
def status_line (category : String) (budget spent : ℚ) : BudgetLine :=
  let percentage := min 100 (spent / budget * 100)
  { category := category
    budget := budget
    spent := spent
    percentUsed := percentage
    severity := if percentage ≥ 80 then .critical
                else if percentage ≥ 60 then .warning
                else .ok
    overBudgetBy := if budget - spent < 0 then some |budget - spent| else none }

/-- budget_status: the loop of budget_manager.py lines 143-166, one line per
budget-dict entry with budget > 0, in dict order; spent defaults to 0 for
categories missing from the spending map (line 145 uses .get(category, 0),
modelled by taking spending as a total function). -/
def budget_status (budgets : List (String × ℚ)) (spending : String → ℚ) :
    List BudgetLine :=
  (budgets.filter fun cb => 0 < cb.2).map fun cb =>
    status_line cb.1 cb.2 (spending cb.1)

/-- The category filter of Expense_tracker.py lines 116-120: a nonempty
selection keeps the rows whose category is in it; an empty selection leaves
the rows untouched, because the test `if selected_categories:` is false. -/
def apply_category_filter (selected_categories : List String)
    (rows : List Expense) : List Expense :=
  if selected_categories.isEmpty then rows
  else rows.filter fun e => selected_categories.contains e.category

/-- The four date-filter options of Expense_tracker.py lines 75-77. -/
inductive DateFilter
  | allTime
  | thisMonth
  | lastSevenDays
  | custom (startDate endDate : Int)

/-- Calendar context supplied by the host page: datetime.now() and the
calendar projection from a day number to its month and year. -/
structure CalendarContext where
  monthOf : Int → ℕ
  yearOf : Int → ℕ
  currentMonth : ℕ
  currentYear : ℕ
  today : Int

/-- Date predicate of Expense_tracker.py lines 98-114: All time applies no
constraint; This month matches the current month and year; Last 7 days keeps
dates on or after today - 7; Custom keeps the inclusive range. -/
def matches_date (ctx : CalendarContext) : DateFilter → Int → Bool
  | .allTime, _ => true
  | .thisMonth, d => ctx.monthOf d == ctx.currentMonth && ctx.yearOf d == ctx.currentYear
  | .lastSevenDays, d => ctx.today - 7 ≤ d
  | .custom s e, d => s ≤ d && d ≤ e

/-- Filter pipeline of Expense_tracker.py lines 95-120: copy the ledger, apply
the date filter, then apply the category filter. -/
def filter_expenses (ctx : CalendarContext) (dateFilter : DateFilter)
    (selected_categories : List String) (rows : List Expense) : List Expense :=
  apply_category_filter selected_categories
    (rows.filter fun e => matches_date ctx dateFilter e.date)

/-- Total of the amount column (Expense_tracker.py line 127). -/
def totalFor (rows : List Expense) : ℚ :=
  (rows.map fun e => e.amount).sum

/-- Keys of the pandas groupby of data_visualization.py line 28 and line 152:
the set of categories present in the rows. -/
def categoryKeys (rows : List Expense) : Finset String :=
  (rows.map fun e => e.category).toFinset

/-- Group total of groupby('category')['amount'].sum() for one category. -/
def categoryTotal (rows : List Expense) (c : String) : ℚ :=
  ((rows.filter fun e => e.category = c).map fun e => e.amount).sum

/-- sumByCategory: the groupby('category')['amount'].sum() mapping of
data_visualization.py lines 27-28 and 150-152, as the set of
(category, group total) pairs; pandas orders the keys canonically, so the
mapping carries no trace of the input order. -/
def sumByCategory (rows : List Expense) : Finset (String × ℚ) :=
  (categoryKeys rows).image fun c => (c, categoryTotal rows c)

/-- The default category registry seeded in budget_manager.py lines 10-15. -/
def default_categories : List String :=
  ["Food & Drinks", "Groceries", "Transportation",
   "Entertainment", "Shopping", "Bills & Utilities",
   "Education", "Housing & Rent", "Health", "Other"]

/-- Session state: the expenses DataFrame (app.py lines 20-23), the category
registry (budget_manager.py lines 10-15) and the budgets dict (app.py lines
25-26), the dict modelled as its insertion-ordered association list. -/
structure SessionState where
  expenses : List Expense
  budget_categories : List String
  budgets : List (String × ℚ)

/-- Python dict assignment d[k] = v on an insertion-ordered association list:
an existing key keeps its position and gets the new value, a new key is
appended at the end. -/
def dict_set (l : List (String × ℚ)) (k : String) (v : ℚ) : List (String × ℚ) :=
  if l.any fun p => p.1 = k then l.map fun p => if p.1 = k then (k, v) else p
  else l ++ [(k, v)]

/-- Initial session state (app.py lines 20-26 and budget_manager.py lines
10-15): empty ledger, the ten default categories, empty budgets dict. -/
def init_state : SessionState :=
  { expenses := [], budget_categories := default_categories, budgets := [] }

/-- Registry phase of saving a custom category (budget_manager.py line 84):
append the name to budget_categories, touching nothing else. -/
def register_category (name : String) (s : SessionState) : SessionState :=
  { s with budget_categories := s.budget_categories ++ [name] }

/-- Allocation phase of saving a custom category (budget_manager.py line 85):
write budgets[name] = amount, touching nothing else. -/
def allocate_budget (name : String) (amount : ℚ) (s : SessionState) : SessionState :=
  { s with budgets := dict_set s.budgets name amount }

/-- The one validation failure of the model: a negative amount.  The source
rejects negative amounts through the number_input widgets' min_value=0.0
(Expense_tracker.py line 21, budget_manager.py lines 54-60 and 71-76); the
rejection at the mutation boundary is embedded as this error. -/
inductive ValidationError
  | negativeAmount
deriving DecidableEq

/-- The mutating operations of one session: adding an expense record
(Expense_tracker.py lines 34-45), saving the budget of a registered category
(budget_manager.py lines 49-63), and saving a new custom category with its
budget (budget_manager.py lines 81-86). -/
inductive Op
  | addExpense (date : Int) (amount : ℚ) (category description : String)
  | setBudget (category : String) (amount : ℚ)
  | addCustomCategory (name : String) (amount : ℚ)

/-- One mutation step.  addExpense appends the new row (pd.concat, line 44 of
Expense_tracker.py).  setBudget writes budgets[category] for a category offered
by the form loop, which only iterates over registered categories
(budget_manager.py lines 49-63).  addCustomCategory mirrors lines 83-85 of
budget_manager.py: only a nonempty, not yet registered name is added, the
registry append of line 84 running before the allocation write of line 85.
A negative amount is rejected by the widgets (min_value=0.0) and yields a
ValidationError with no state change. -/
def step (s : SessionState) : Op → Except ValidationError SessionState
  | .addExpense d amount category description =>
      if amount < 0 then .error .negativeAmount
      else .ok { s with expenses := s.expenses ++ [⟨d, amount, category, description⟩] }
  | .setBudget category amount =>
      if amount < 0 then .error .negativeAmount
      else if category ∈ s.budget_categories then
        .ok { s with budgets := dict_set s.budgets category amount }
      else .ok s
  | .addCustomCategory name amount =>
      if amount < 0 then .error .negativeAmount
      else if name ≠ "" ∧ name ∉ s.budget_categories then
        .ok (allocate_budget name amount (register_category name s))
      else .ok s

/-- Run a sequence of operations from a state; a failing mutation leaves the
state unchanged and the session continues. -/
def run_ops (s : SessionState) : List Op → SessionState
  | [] => s
  | op :: ops =>
      match step s op with
      | .ok next => run_ops next ops
      | .error _ => run_ops s ops

/-- Registry-membership invariant of the spec: every key of the budgets dict
is a registered category. -/
def BudgetKeysRegistered (s : SessionState) : Prop :=
  ∀ p ∈ s.budgets, p.1 ∈ s.budget_categories

/-- Non-negativity invariant: every ledger record and every budget value is
at least 0. -/
def NonnegState (s : SessionState) : Prop :=
  (∀ e ∈ s.expenses, 0 ≤ e.amount) ∧ (∀ p ∈ s.budgets, 0 ≤ p.2)

/-- Equal distribution default of the weekly spending planner (app.py line
111): [1/7] * 7. -/
def default_distribution : List ℚ := List.replicate 7 (1 / 7)

/-- Distribution validation of app.py lines 140-144: when the custom
percentages are off 100 by more than 0.1 the plan falls back to the default
distribution, otherwise each percentage p becomes the share p/100. -/
def distribution_of (percentages : List ℚ) : List ℚ :=
  if |percentages.sum - 100| > 1 / 10 then default_distribution
  else percentages.map fun p => p / 100

/-- daily_amounts of app.py line 149: pocket_money * dist for each day. -/
def daily_amounts (pocket_money : ℚ) (distribution : List ℚ) : List ℚ :=
  distribution.map fun dist => pocket_money * dist

/-- C3: the inflation-adjusted SIP final value is not guarded: at annual
return 6% and inflation 6% (both reachable on the sliders) the real return
rate is 0 and line 143 of Investment_Calculator.py divides by zero
(ZeroDivisionError, modelled as none) instead of returning
monthly_investment * total_months. -/
theorem c3_inflation_divzero_unguarded :
    real_return_rate 6 6 = 0
    ∧ sip_inflation_adj_final 1000 6 6 10 = none
    ∧ ∀ q : ℚ, sip_inflation_adj_final 1000 6 6 10 ≠ some q := by
  have h0 : real_return_rate 6 6 = 0 := by
    norm_num [real_return_rate]
  have hnone : sip_inflation_adj_final 1000 6 6 10 = none := by
    simp [sip_inflation_adj_final, h0]
  exact ⟨h0, hnone, fun q => by simp [hnone]⟩

/-- C4: calculate_lumpsum_returns produces exactly years+1 points; the point
at year y is (y, principal * (1+rate/100)^y); the year-0 point is the
principal unchanged; and for (100000, 12, 10) the year-10 value is within
0.01 of 310584.82. -/
theorem c4_lumpsum_projection (investment_amount annual_return_rate : ℚ)
    (time_years : ℕ) (h : 1 ≤ time_years) :
    (calculate_lumpsum_returns investment_amount annual_return_rate time_years).length
        = time_years + 1
    ∧ (∀ y ≤ time_years,
        (calculate_lumpsum_returns investment_amount annual_return_rate time_years)[y]? =
          some (y, investment_amount * (1 + annual_return_rate / 100) ^ y))
    ∧ (calculate_lumpsum_returns investment_amount annual_return_rate time_years)[0]? =
        some (0, investment_amount)
    ∧ (calculate_lumpsum_returns 100000 12 10)[10]? =
        some (10, 100000 * (1 + (12 : ℚ) / 100) ^ 10)
    ∧ |100000 * (1 + (12 : ℚ) / 100) ^ 10 - 31058482 / 100| ≤ 1 / 100 := by
  have hget : ∀ y ≤ time_years,
      (calculate_lumpsum_returns investment_amount annual_return_rate time_years)[y]? =
        some (y, investment_amount * (1 + annual_return_rate / 100) ^ y) := by
    intro y hy
    have hy' : y < time_years + 1 := Nat.lt_succ_of_le hy
    simp [calculate_lumpsum_returns, List.getElem?_map, List.getElem?_range, hy']
  refine ⟨by simp [calculate_lumpsum_returns], hget, ?_, ?_, ?_⟩
  · have := hget 0 (Nat.zero_le _)
    simpa using this
  · have h10 : (10 : ℕ) < 10 + 1 := by omega
    simp [calculate_lumpsum_returns, List.getElem?_map, List.getElem?_range, h10]
  · rw [abs_le]
    constructor <;> norm_num

/-- C4 witness at (100000, 12, 10). -/
theorem c4_lumpsum_projection_witness :
    (1 ≤ 10)
    ∧ ((calculate_lumpsum_returns 100000 12 10).length = 10 + 1
    ∧ (∀ y ≤ 10,
        (calculate_lumpsum_returns 100000 12 10)[y]? =
          some (y, 100000 * (1 + (12 : ℚ) / 100) ^ y))
    ∧ (calculate_lumpsum_returns 100000 12 10)[0]? = some (0, 100000)
    ∧ (calculate_lumpsum_returns 100000 12 10)[10]? =
        some (10, 100000 * (1 + (12 : ℚ) / 100) ^ 10)
    ∧ |100000 * (1 + (12 : ℚ) / 100) ^ 10 - 31058482 / 100| ≤ 1 / 100) :=
  ⟨by decide, c4_lumpsum_projection 100000 12 10 (by decide)⟩

/-- C5 counterexample: with a one-record ledger and an empty selection the
category filter of Expense_tracker.py lines 116-120 returns the record, not
the empty result the claim asserts. -/
theorem c5_empty_selection_counterexample :
    apply_category_filter [] [⟨0, 5, "Food & Drinks", ""⟩] ≠ ([] : List Expense) := by
  decide

/-- C5 amended: once the multi-select is left empty the source skips the
category filter entirely, so every record matches and the result is the input
ledger unchanged. -/
theorem c5_empty_selection_matches_all (rows : List Expense) :
    apply_category_filter [] rows = rows := by
  simp [apply_category_filter]

/-- C10: when the seven custom day percentages are off 100 by more than 0.1
the planner falls back to the equal distribution, each day gets
pocket_money/7 and the seven amounts sum exactly to the pocket money; when
the total is within 0.1 of 100 each day gets pocket_money * (percentage/100). -/
theorem c10_spending_planner (pocket_money : ℚ) (percentages : List ℚ)
    (hlen : percentages.length = 7) :
    (|percentages.sum - 100| > 1 / 10 →
      daily_amounts pocket_money (distribution_of percentages)
          = List.replicate 7 (pocket_money / 7)
      ∧ (daily_amounts pocket_money (distribution_of percentages)).sum = pocket_money)
    ∧ (|percentages.sum - 100| ≤ 1 / 10 →
      daily_amounts pocket_money (distribution_of percentages)
          = percentages.map fun p => pocket_money * (p / 100)) := by
  have hpm : pocket_money * (1 / 7 : ℚ) = pocket_money / 7 := by ring
  constructor
  · intro hbad
    have hdist : distribution_of percentages = default_distribution := by
      unfold distribution_of
      exact if_pos hbad
    have hmap : daily_amounts pocket_money (distribution_of percentages)
        = List.replicate 7 (pocket_money / 7) := by
      rw [hdist]
      unfold daily_amounts default_distribution
      rw [List.map_replicate, hpm]
    refine ⟨hmap, ?_⟩
    rw [hmap, List.sum_replicate, nsmul_eq_mul]
    push_cast
    ring
  · intro hgood
    have hnot : ¬(|percentages.sum - 100| > 1 / 10) := not_lt.mpr hgood
    have hdist : distribution_of percentages = percentages.map fun p => p / 100 := by
      unfold distribution_of
      exact if_neg hnot
    unfold daily_amounts
    rw [hdist, List.map_map]
    rfl

/-- C10 witness: seven percentages of 20 each total 140, off 100 by more than
0.1, so the planner falls back to the equal distribution. -/
theorem c10_spending_planner_witness :
    ([(20 : ℚ), 20, 20, 20, 20, 20, 20].length = 7)
    ∧ ((|[(20 : ℚ), 20, 20, 20, 20, 20, 20].sum - 100| > 1 / 10 →
      daily_amounts 700 (distribution_of [(20 : ℚ), 20, 20, 20, 20, 20, 20])
          = List.replicate 7 ((700 : ℚ) / 7)
      ∧ (daily_amounts 700 (distribution_of [(20 : ℚ), 20, 20, 20, 20, 20, 20])).sum = 700)
    ∧ (|[(20 : ℚ), 20, 20, 20, 20, 20, 20].sum - 100| ≤ 1 / 10 →
      daily_amounts 700 (distribution_of [(20 : ℚ), 20, 20, 20, 20, 20, 20])
          = [(20 : ℚ), 20, 20, 20, 20, 20, 20].map fun p => 700 * (p / 100))) :=
  ⟨by decide, c10_spending_planner 700 [20, 20, 20, 20, 20, 20, 20] (by decide)⟩

/-- Helper: the cumulative-contribution column is (month index + 1)
contributions. -/
theorem total_investment_eq (monthly_investment : ℝ) (n : ℕ) :
    total_investment monthly_investment n = (n + 1 : ℕ) * monthly_investment := by
  induction n with
  | zero => simp [total_investment]
  | succ n ih =>
      rw [total_investment, ih]
      push_cast
      ring

/-- C1: the SIP projection has exactly years*12 rows; row k (0-based) is month
k+1 with cumulative contribution (k+1) times the contribution; the month-1
value equals the contribution; each later month's value is the previous value
times (1 + monthly_rate) plus the contribution, growth applied before the
contribution is added. -/
theorem c1_sip_projection (monthly_investment annual_return_rate : ℝ)
    (time_years : ℕ) (h : 1 ≤ time_years) :
    (calculate_sip_returns monthly_investment annual_return_rate time_years).length
        = time_years * 12
    ∧ (∀ k < time_years * 12,
        (calculate_sip_returns monthly_investment annual_return_rate time_years)[k]? =
          some (k + 1, ((k : ℝ) + 1) * monthly_investment,
            investment_value annual_return_rate monthly_investment k))
    ∧ investment_value annual_return_rate monthly_investment 0 = monthly_investment
    ∧ ∀ n, investment_value annual_return_rate monthly_investment (n + 1)
        = investment_value annual_return_rate monthly_investment n *
            (1 + monthly_rate annual_return_rate) + monthly_investment := by
  refine ⟨by simp [calculate_sip_returns], ?_, rfl, fun n => rfl⟩
  intro k hk
  have hti := total_investment_eq monthly_investment k
  push_cast at hti
  simp [calculate_sip_returns, List.getElem?_map, List.getElem?_range, hk, hti]

/-- C1 witness at contribution 1000, annual rate 12, one year. -/
theorem c1_sip_projection_witness :
    (1 ≤ 1)
    ∧ ((calculate_sip_returns 1000 12 1).length = 1 * 12
    ∧ (∀ k : ℕ, k < 1 * 12 →
        (calculate_sip_returns 1000 12 1)[k]? =
          some (k + 1, ((k : ℝ) + 1) * 1000, investment_value 12 1000 k))
    ∧ investment_value 12 1000 0 = 1000
    ∧ ∀ n, investment_value 12 1000 (n + 1)
        = investment_value 12 1000 n * (1 + monthly_rate 12) + 1000) :=
  ⟨by decide, c1_sip_projection 1000 12 1 (by decide)⟩

/-- C2: the budget report lists exactly the positive-budget categories, in
dict order; each line's percentUsed is min 100 (spent/budget*100); the
severity is ok strictly below 60, warning from 60 up to but excluding 80, and
critical from 80 on, both thresholds inclusive at the lower bound; a negative
remaining amount is reported as over budget by its absolute value; spent 80
of budget 100 is critical and spent 59.99 of budget 100 is ok. -/
theorem c2_budget_status (budgets : List (String × ℚ)) (spending : String → ℚ)
    (category : String) (budget spent : ℚ) (hb : 0 < budget) :
    ((budget_status budgets spending).map (fun l => l.category)
        = (budgets.filter fun cb => 0 < cb.2).map fun cb => cb.1)
    ∧ (status_line category budget spent).percentUsed = min 100 (spent / budget * 100)
    ∧ ((status_line category budget spent).percentUsed < 60 →
        (status_line category budget spent).severity = .ok)
    ∧ (60 ≤ (status_line category budget spent).percentUsed →
        (status_line category budget spent).percentUsed < 80 →
        (status_line category budget spent).severity = .warning)
    ∧ (80 ≤ (status_line category budget spent).percentUsed →
        (status_line category budget spent).severity = .critical)
    ∧ (budget - spent < 0 →
        (status_line category budget spent).overBudgetBy = some |budget - spent|)
    ∧ (status_line category 100 80).severity = .critical
    ∧ (status_line category 100 (5999 / 100)).severity = .ok := by
  refine ⟨?_, rfl, ?_, ?_, ?_, ?_, ?_, ?_⟩
  · unfold budget_status
    rw [List.map_map]
    rfl
  · intro hlt
    simp only [status_line] at hlt ⊢
    rw [if_neg (by intro hc; linarith), if_neg (by intro hc; linarith)]
  · intro h60 h80
    simp only [status_line] at h60 h80 ⊢
    rw [if_neg (by intro hc; linarith), if_pos (by exact h60)]
  · intro h80
    simp only [status_line] at h80 ⊢
    rw [if_pos (by exact h80)]
  · intro hover
    simp only [status_line]
    rw [if_pos hover]
  · norm_num [status_line]
  · norm_num [status_line]

/-- C2 witness at one positive budget line with spent 80 of 100. -/
theorem c2_budget_status_witness :
    (0 < (100 : ℚ))
    ∧ (((budget_status [("Food & Drinks", 100)] fun _ => 80).map (fun l => l.category)
        = ([("Food & Drinks", (100 : ℚ))].filter fun cb => 0 < cb.2).map fun cb => cb.1)
    ∧ (status_line "Food & Drinks" 100 80).percentUsed = min 100 (80 / 100 * 100)
    ∧ ((status_line "Food & Drinks" 100 80).percentUsed < 60 →
        (status_line "Food & Drinks" 100 80).severity = .ok)
    ∧ (60 ≤ (status_line "Food & Drinks" 100 80).percentUsed →
        (status_line "Food & Drinks" 100 80).percentUsed < 80 →
        (status_line "Food & Drinks" 100 80).severity = .warning)
    ∧ (80 ≤ (status_line "Food & Drinks" 100 80).percentUsed →
        (status_line "Food & Drinks" 100 80).severity = .critical)
    ∧ ((100 : ℚ) - 80 < 0 →
        (status_line "Food & Drinks" 100 80).overBudgetBy = some |(100 : ℚ) - 80|)
    ∧ (status_line "Food & Drinks" 100 80).severity = .critical
    ∧ (status_line "Food & Drinks" 100 (5999 / 100)).severity = .ok) :=
  ⟨by norm_num, c2_budget_status [("Food & Drinks", 100)] (fun _ => 80)
    "Food & Drinks" 100 80 (by norm_num)⟩

/-- C7: with the All time date filter and a selection containing every
category appearing in the ledger, the filter pipeline returns the ledger
unchanged in input order, and its total equals the total of the whole
ledger. -/
theorem c7_unconstrained_filter (ctx : CalendarContext)
    (selected_categories : List String) (rows : List Expense)
    (hall : ∀ e ∈ rows, e.category ∈ selected_categories) :
    filter_expenses ctx .allTime selected_categories rows = rows
    ∧ totalFor (filter_expenses ctx .allTime selected_categories rows)
        = totalFor rows := by
  have hdate : (rows.filter fun e => matches_date ctx .allTime e.date) = rows := by
    simp [matches_date]
  have hmain : filter_expenses ctx .allTime selected_categories rows = rows := by
    rw [filter_expenses, hdate, apply_category_filter]
    split_ifs with hempty
    · rfl
    · exact List.filter_eq_self.mpr fun e he => by
        simpa using hall e he
  exact ⟨hmain, by rw [hmain]⟩

/-- C7 witness on a two-record ledger whose categories are both selected. -/
theorem c7_unconstrained_filter_witness :
    (∀ e ∈ [Expense.mk 0 5 "Groceries" "", Expense.mk 1 7 "Health" ""],
        e.category ∈ ["Groceries", "Health"])
    ∧ (filter_expenses ⟨fun _ => 1, fun _ => 2023, 1, 2023, 0⟩ .allTime
        ["Groceries", "Health"]
        [Expense.mk 0 5 "Groceries" "", Expense.mk 1 7 "Health" ""]
        = [Expense.mk 0 5 "Groceries" "", Expense.mk 1 7 "Health" ""]
    ∧ totalFor (filter_expenses ⟨fun _ => 1, fun _ => 2023, 1, 2023, 0⟩ .allTime
        ["Groceries", "Health"]
        [Expense.mk 0 5 "Groceries" "", Expense.mk 1 7 "Health" ""])
        = totalFor [Expense.mk 0 5 "Groceries" "", Expense.mk 1 7 "Health" ""]) :=
  ⟨by decide, c7_unconstrained_filter ⟨fun _ => 1, fun _ => 2023, 1, 2023, 0⟩
    ["Groceries", "Health"]
    [Expense.mk 0 5 "Groceries" "", Expense.mk 1 7 "Health" ""] (by decide)⟩

/-- Helper: the per-category group total only depends on the rows up to
permutation. -/
theorem categoryTotal_perm (rows others : List Expense) (h : rows.Perm others) :
    categoryTotal rows = categoryTotal others := by
  funext c
  exact ((h.filter _).map _).sum_eq

/-- Helper: the groupby key set only depends on the rows up to permutation. -/
theorem categoryKeys_perm (rows others : List Expense) (h : rows.Perm others) :
    categoryKeys rows = categoryKeys others :=
  List.toFinset_eq_of_perm _ _ (h.map _)

/-- C6: sumByCategory pairs each category present in the input with its group
sum, contains nothing else, is unchanged under any permutation of the input
rows, and mentions no category absent from the input. -/
theorem c6_sum_by_category (rows others : List Expense) (c : String) (q : ℚ)
    (hperm : rows.Perm others) :
    (c ∈ categoryKeys rows → (c, categoryTotal rows c) ∈ sumByCategory rows)
    ∧ ((c, q) ∈ sumByCategory rows → q = categoryTotal rows c ∧ c ∈ categoryKeys rows)
    ∧ sumByCategory rows = sumByCategory others
    ∧ (c ∉ rows.map (fun e => e.category) → ∀ p ∈ sumByCategory rows, p.1 ≠ c) := by
  refine ⟨?_, ?_, ?_, ?_⟩
  · intro hc
    exact Finset.mem_image_of_mem _ hc
  · intro hmem
    obtain ⟨a, ha, heq⟩ := Finset.mem_image.mp hmem
    rw [Prod.mk.injEq] at heq
    obtain ⟨rfl, rfl⟩ := heq
    exact ⟨rfl, ha⟩
  · unfold sumByCategory
    rw [categoryKeys_perm rows others hperm, categoryTotal_perm rows others hperm]
  · intro hnot p hp hpc
    obtain ⟨a, ha, heq⟩ := Finset.mem_image.mp hp
    have ha1 : a = p.1 := by rw [← heq]
    refine hnot ?_
    have hmem : a ∈ rows.map (fun e => e.category) := List.mem_toFinset.mp ha
    rwa [ha1, hpc] at hmem

/-- C6 witness on a two-row ledger and its swap. -/
theorem c6_sum_by_category_witness :
    ([Expense.mk 0 5 "Groceries" "", Expense.mk 1 7 "Health" ""].Perm
      [Expense.mk 1 7 "Health" "", Expense.mk 0 5 "Groceries" ""])
    ∧ (("Groceries" ∈ categoryKeys [Expense.mk 0 5 "Groceries" "", Expense.mk 1 7 "Health" ""] →
        ("Groceries",
          categoryTotal [Expense.mk 0 5 "Groceries" "", Expense.mk 1 7 "Health" ""] "Groceries")
          ∈ sumByCategory [Expense.mk 0 5 "Groceries" "", Expense.mk 1 7 "Health" ""])
    ∧ (("Groceries", (5 : ℚ))
          ∈ sumByCategory [Expense.mk 0 5 "Groceries" "", Expense.mk 1 7 "Health" ""] →
        (5 : ℚ) = categoryTotal [Expense.mk 0 5 "Groceries" "", Expense.mk 1 7 "Health" ""]
            "Groceries"
        ∧ "Groceries" ∈ categoryKeys [Expense.mk 0 5 "Groceries" "", Expense.mk 1 7 "Health" ""])
    ∧ sumByCategory [Expense.mk 0 5 "Groceries" "", Expense.mk 1 7 "Health" ""]
        = sumByCategory [Expense.mk 1 7 "Health" "", Expense.mk 0 5 "Groceries" ""]
    ∧ ("Groceries" ∉ [Expense.mk 0 5 "Groceries" "", Expense.mk 1 7 "Health" ""].map
          (fun e => e.category) →
        ∀ p ∈ sumByCategory [Expense.mk 0 5 "Groceries" "", Expense.mk 1 7 "Health" ""],
          p.1 ≠ "Groceries")) :=
  ⟨by decide, c6_sum_by_category
    [Expense.mk 0 5 "Groceries" "", Expense.mk 1 7 "Health" ""]
    [Expense.mk 1 7 "Health" "", Expense.mk 0 5 "Groceries" ""]
    "Groceries" 5 (by decide)⟩

/-- Helper: a member of dict_set l k v is the written pair (k, v) or a member
of l. -/
theorem mem_dict_set (l : List (String × ℚ)) (k : String) (v : ℚ) (p : String × ℚ)
    (hp : p ∈ dict_set l k v) : p = (k, v) ∨ p ∈ l := by
  unfold dict_set at hp
  split_ifs at hp with hany
  · obtain ⟨p0, hp0, heq⟩ := List.mem_map.mp hp
    by_cases hk : p0.1 = k
    · left
      rw [← heq, if_pos hk]
    · right
      rw [← heq, if_neg hk]
      exact hp0
  · rcases List.mem_append.mp hp with h | h
    · right; exact h
    · left; simpa using h

/-- Helper: each successful step keeps every budget key registered. -/
theorem step_preserves_registered (s s' : SessionState) (op : Op)
    (hinv : BudgetKeysRegistered s) (h : step s op = .ok s') :
    BudgetKeysRegistered s' := by
  cases op with
  | addExpense d amount category description =>
      simp only [step] at h
      by_cases hneg : amount < 0
      · rw [if_pos hneg] at h
        exact Except.noConfusion h
      · rw [if_neg hneg] at h
        cases Except.ok.inj h
        intro p hp
        exact hinv p hp
  | setBudget category amount =>
      simp only [step] at h
      by_cases hneg : amount < 0
      · rw [if_pos hneg] at h
        exact Except.noConfusion h
      · rw [if_neg hneg] at h
        by_cases hcat : category ∈ s.budget_categories
        · rw [if_pos hcat] at h
          cases Except.ok.inj h
          intro p hp
          rcases mem_dict_set _ _ _ _ hp with rfl | hold
          · exact hcat
          · exact hinv p hold
        · rw [if_neg hcat] at h
          cases Except.ok.inj h
          exact hinv
  | addCustomCategory name amount =>
      simp only [step] at h
      by_cases hneg : amount < 0
      · rw [if_pos hneg] at h
        exact Except.noConfusion h
      · rw [if_neg hneg] at h
        by_cases hnew : name ≠ "" ∧ name ∉ s.budget_categories
        · rw [if_pos hnew] at h
          cases Except.ok.inj h
          intro p hp
          simp only [allocate_budget, register_category] at hp ⊢
          rcases mem_dict_set _ _ _ _ hp with rfl | hold
          · simp
          · exact List.mem_append_left _ (hinv p hold)
        · rw [if_neg hnew] at h
          cases Except.ok.inj h
          exact hinv

/-- Helper: every state reached by running operations from a state with all
budget keys registered keeps all budget keys registered. -/
theorem run_ops_preserves_registered (ops : List Op) (s : SessionState)
    (hinv : BudgetKeysRegistered s) : BudgetKeysRegistered (run_ops s ops) := by
  induction ops generalizing s with
  | nil => exact hinv
  | cons op ops ih =>
      simp only [run_ops]
      cases hstep : step s op with
      | ok s' => exact ih s' (step_preserves_registered s s' op hinv hstep)
      | error e => exact ih s hinv

/-- Helper: each successful step keeps all recorded amounts and budget values
non-negative. -/
theorem step_preserves_nonneg (s s' : SessionState) (op : Op)
    (hinv : NonnegState s) (h : step s op = .ok s') : NonnegState s' := by
  cases op with
  | addExpense d amount category description =>
      simp only [step] at h
      by_cases hneg : amount < 0
      · rw [if_pos hneg] at h
        exact Except.noConfusion h
      · rw [if_neg hneg] at h
        cases Except.ok.inj h
        refine ⟨?_, hinv.2⟩
        intro e he
        rcases List.mem_append.mp he with hold | hnewm
        · exact hinv.1 e hold
        · have he2 : e = ⟨d, amount, category, description⟩ := by simpa using hnewm
          rw [he2]
          exact not_lt.mp hneg
  | setBudget category amount =>
      simp only [step] at h
      by_cases hneg : amount < 0
      · rw [if_pos hneg] at h
        exact Except.noConfusion h
      · rw [if_neg hneg] at h
        by_cases hcat : category ∈ s.budget_categories
        · rw [if_pos hcat] at h
          cases Except.ok.inj h
          refine ⟨hinv.1, ?_⟩
          intro p hp
          rcases mem_dict_set _ _ _ _ hp with rfl | hold
          · exact not_lt.mp hneg
          · exact hinv.2 p hold
        · rw [if_neg hcat] at h
          cases Except.ok.inj h
          exact hinv
  | addCustomCategory name amount =>
      simp only [step] at h
      by_cases hneg : amount < 0
      · rw [if_pos hneg] at h
        exact Except.noConfusion h
      · rw [if_neg hneg] at h
        by_cases hnew : name ≠ "" ∧ name ∉ s.budget_categories
        · rw [if_pos hnew] at h
          cases Except.ok.inj h
          refine ⟨hinv.1, ?_⟩
          intro p hp
          simp only [allocate_budget, register_category] at hp
          rcases mem_dict_set _ _ _ _ hp with rfl | hold
          · exact not_lt.mp hneg
          · exact hinv.2 p hold
        · rw [if_neg hnew] at h
          cases Except.ok.inj h
          exact hinv

/-- Helper: every state reached by running operations from a non-negative
state is non-negative. -/
theorem run_ops_preserves_nonneg (ops : List Op) (s : SessionState)
    (hinv : NonnegState s) : NonnegState (run_ops s ops) := by
  induction ops generalizing s with
  | nil => exact hinv
  | cons op ops ih =>
      simp only [run_ops]
      cases hstep : step s op with
      | ok s' => exact ih s' (step_preserves_nonneg s s' op hinv hstep)
      | error e => exact ih s hinv

/-- C8: every state reachable from the initial session state keeps every
budget key registered; and on the custom-category path the registry is
mutated first: after the registry phase alone the new name is already
registered while the budgets dict is untouched, and the full step is the
allocation phase applied after the registry phase. -/
theorem c8_registry_invariant (ops : List Op) (name : String) (amount : ℚ)
    (s : SessionState) (hamt : 0 ≤ amount)
    (hname : name ≠ "" ∧ name ∉ s.budget_categories) :
    BudgetKeysRegistered (run_ops init_state ops)
    ∧ name ∈ (register_category name s).budget_categories
    ∧ (register_category name s).budgets = s.budgets
    ∧ step s (.addCustomCategory name amount)
        = .ok (allocate_budget name amount (register_category name s)) := by
  refine ⟨?_, ?_, rfl, ?_⟩
  · refine run_ops_preserves_registered ops init_state ?_
    intro p hp
    simp [init_state] at hp
  · simp [register_category]
  · simp only [step]
    rw [if_neg (not_lt.mpr hamt), if_pos hname]

/-- C8 witness: the empty run and a fresh custom category added to the
initial state. -/
theorem c8_registry_invariant_witness :
    ((0 : ℚ) ≤ 0 ∧ "Custom" ≠ "" ∧ "Custom" ∉ init_state.budget_categories)
    ∧ (BudgetKeysRegistered (run_ops init_state [])
    ∧ "Custom" ∈ (register_category "Custom" init_state).budget_categories
    ∧ (register_category "Custom" init_state).budgets = init_state.budgets
    ∧ step init_state (.addCustomCategory "Custom" 0)
        = .ok (allocate_budget "Custom" 0 (register_category "Custom" init_state))) :=
  ⟨⟨by decide, by decide, by decide⟩,
    c8_registry_invariant [] "Custom" 0 init_state (by decide) ⟨by decide, by decide⟩⟩

/-- C9: a negative amount makes each mutation fail with ValidationError, a
failed step leaves the session state exactly as it was, and consequently
every reachable state has only non-negative expense amounts and budget
values. -/
theorem c9_nonnegative_enforced (s : SessionState) (d : Int) (amount : ℚ)
    (category description name : String) (ops : List Op) (hneg : amount < 0) :
    step s (.addExpense d amount category description) = .error .negativeAmount
    ∧ step s (.setBudget category amount) = .error .negativeAmount
    ∧ step s (.addCustomCategory name amount) = .error .negativeAmount
    ∧ (∀ op s₀, step s₀ op = .error ValidationError.negativeAmount →
        run_ops s₀ (op :: ops) = run_ops s₀ ops)
    ∧ (∀ e ∈ (run_ops init_state ops).expenses, 0 ≤ e.amount)
    ∧ (∀ p ∈ (run_ops init_state ops).budgets, 0 ≤ p.2) := by
  have h1 : step s (.addExpense d amount category description)
      = .error .negativeAmount := by
    simp only [step]
    rw [if_pos hneg]
  have h2 : step s (.setBudget category amount) = .error .negativeAmount := by
    simp only [step]
    rw [if_pos hneg]
  have h3 : step s (.addCustomCategory name amount) = .error .negativeAmount := by
    simp only [step]
    rw [if_pos hneg]
  have hrun : ∀ op s₀, step s₀ op = .error ValidationError.negativeAmount →
      run_ops s₀ (op :: ops) = run_ops s₀ ops := by
    intro op s₀ h
    simp only [run_ops]
    rw [h]
  have hinv : NonnegState (run_ops init_state ops) := by
    refine run_ops_preserves_nonneg ops init_state ⟨?_, ?_⟩ <;>
      intro x hx <;> simp [init_state] at hx
  exact ⟨h1, h2, h3, hrun, hinv.1, hinv.2⟩

/-- C9 witness: a rejected amount of -1 against the initial state and the
empty run. -/
theorem c9_nonnegative_enforced_witness :
    ((-1 : ℚ) < 0)
    ∧ (step init_state (.addExpense 0 (-1) "Other" "") = .error .negativeAmount
    ∧ step init_state (.setBudget "Other" (-1)) = .error .negativeAmount
    ∧ step init_state (.addCustomCategory "Custom" (-1)) = .error .negativeAmount
    ∧ (∀ op s₀, step s₀ op = .error ValidationError.negativeAmount →
        run_ops s₀ (op :: []) = run_ops s₀ [])
    ∧ (∀ e ∈ (run_ops init_state []).expenses, 0 ≤ e.amount)
    ∧ (∀ p ∈ (run_ops init_state []).budgets, 0 ≤ p.2)) :=
  ⟨by decide, c9_nonnegative_enforced init_state 0 (-1) "Other" "" "Custom" [] (by decide)⟩
